import Mathlib

/-!
Verification of the `ovmgmt` OpenVPN management-protocol client.

This file shallowly embeds the event-parsing core of the library:
the line splitter `splitEvent`, the typed-event factories
(`upgradeEvent`, `upgradeMultilineEvent` and the per-variant
constructors), the multi-line event assembler loop `eventScanner`,
the `status 3` snapshot parser `NewStatus3Event` with its row
constructors, and the small argument-validation logic of
`SetVerbosityLevel` and the status-poller emission path.

Go slice indexing that can go out of range is modelled by `Option`
(`none` = runtime panic); all other Go functions are embedded as total
Lean functions.  Go standard-library helpers used by the code
(`strconv.ParseInt`, `strings.SplitN`, `net.SplitHostPort`,
`net.ParseIP`, ...) are modelled explicitly below, faithful to their
observable behaviour on the inputs this client feeds them.
-/

set_option autoImplicit false

namespace OvMgmt

/-- Errors produced by the Go code, modelled structurally:
`goErr` for `errors.New`/`fmt.Errorf`, `ovpnErr` for the package's
`OVpnError`, `numSyntax`/`numRange` for `strconv.NumError` with
`ErrSyntax`/`ErrRange` (carrying the function name and the input), and
`addrErr` for `net.AddrError` (carrying the message and the address). -/
inductive GoError where
  | goErr (msg : String)
  | ovpnErr (msg : String)
  | numSyntax (fn num : String)
  | numRange (fn num : String)
  | addrErr (msg addr : String)
deriving DecidableEq, Repr

/-- Finds the first occurrence of `sep` in a character list, returning
the characters before it and after it; models `strings.Index` plus the
two slicings `line[:i]`, `line[i+1:]`. -/
def breakOn (sep : Char) : List Char → Option (List Char × List Char)
  | [] => none
  | c :: cs =>
    if c == sep then some ([], cs)
    else
      match breakOn sep cs with
      | none => none
      | some (a, b) => some (c :: a, b)

/-- Model of Go `strings.SplitN(s, sep, n)` for a single-character
separator and `n ≥ 0`: at most `n` parts, the last part keeping the
remainder unsplit. -/
def splitNChar (sep : Char) : Nat → List Char → List (List Char)
  | 0, _ => []
  | 1, cs => [cs]
  | n + 2, cs =>
    match breakOn sep cs with
    | none => [cs]
    | some (a, b) => a :: splitNChar sep (n + 1) b

/-- Model of Go `strings.Split(s, sep)` for a single-character
separator (unbounded leftmost-first splitting). -/
def splitAllChar (sep : Char) : List Char → List (List Char)
  | [] => [[]]
  | c :: cs =>
    if c == sep then [] :: splitAllChar sep cs
    else
      match splitAllChar sep cs with
      | [] => [[c]]
      | p :: ps => (c :: p) :: ps

/-- String-level version of `splitAllChar`. -/
def splitAllStr (sep : Char) (s : String) : List String :=
  (splitAllChar sep s.data).map String.mk

/-- Embeds `stringsSplitNK` from `event.go`: `strings.SplitN` into at
most `n` parts, then padded with empty strings to at least `k` parts. -/
def stringsSplitNK (s : String) (sep : Char) (n k : Nat) : List String :=
  let parts := (splitNChar sep n s.data).map String.mk
  if parts.length ≥ k then parts
  else parts ++ List.replicate (k - parts.length) ""

/-- Model of Go `strings.HasPrefix(s, pre)` on character lists. -/
def listPfx : List Char → List Char → Bool
  | [], _ => true
  | _ :: _, [] => false
  | a :: as, b :: bs => a == b && listPfx as bs

/-- Model of Go `strings.HasPrefix` on strings. -/
def strHasPfx (pre s : String) : Bool :=
  listPfx pre.data s.data

/-- Model of Go `strings.Join(xs, sep)`. -/
def joinSep (sep : String) : List String → String
  | [] => ""
  | [x] => x
  | x :: xs => x ++ sep ++ joinSep sep xs

/-- Numeric value of a list of decimal digit characters. -/
def digitsVal (ds : List Char) : Nat :=
  ds.foldl (fun a c => a * 10 + (c.toNat - 48)) 0

/-- Model of Go `strconv.ParseInt(s, 10, 64)` parameterised by the
function name recorded in the `NumError` (`"ParseInt"` or `"Atoi"`).
Returns the Go result value together with the Go error: `0` with a
syntax error for malformed input, the clamped bound with a range error
on 64-bit overflow. -/
def parseIntCore (fn : String) (s : String) : Int × Option GoError :=
  match s.data with
  | [] => (0, some (.numSyntax fn s))
  | c :: rest =>
    let neg : Bool := c == '-'
    let ds : List Char := if c == '-' || c == '+' then rest else c :: rest
    if ds.isEmpty then (0, some (.numSyntax fn s))
    else if ds.all Char.isDigit then
      let v : Nat := digitsVal ds
      if neg then
        if v ≤ 2 ^ 63 then (-(v : Int), none)
        else (-(2 ^ 63 : Int), some (.numRange fn s))
      else
        if v ≤ 2 ^ 63 - 1 then ((v : Int), none)
        else ((2 ^ 63 - 1 : Int), some (.numRange fn s))
    else (0, some (.numSyntax fn s))

/-- Go `strconv.ParseInt(s, 10, 64)`. -/
def parseInt64 (s : String) : Int × Option GoError :=
  parseIntCore "ParseInt" s

/-- Go `strconv.Atoi(s)`. -/
def atoi (s : String) : Int × Option GoError :=
  parseIntCore "Atoi" s

/-- Model of Go `strconv.ParseBool`: the Go result value together with
the Go error (`false` plus a syntax error on anything unrecognised). -/
def parseBool (s : String) : Bool × Option GoError :=
  if s = "1" || s = "t" || s = "T" || s = "true" || s = "TRUE" || s = "True" then
    (true, none)
  else if s = "0" || s = "f" || s = "F" || s = "false" || s = "FALSE" || s = "False" then
    (false, none)
  else (false, some (.numSyntax "ParseBool" s))

/-! IP address parsing, modelling the `net` package functions the
status-snapshot row constructors call. -/

/-- An IP address as its list of bytes (Go `net.IP`). -/
abbrev IPBytes := List Nat

/-- First `.` or `:` in the string, deciding v4 vs v6 parsing as in
Go `net.ParseIP`. -/
def firstDotOrColon : List Char → Option Char
  | [] => none
  | c :: cs => if c == '.' || c == ':' then some c else firstDotOrColon cs

/-- The 16-byte form of an IPv4 address (Go `net.IPv4`). -/
def v4mapped (a b c d : Nat) : IPBytes :=
  [0, 0, 0, 0, 0, 0, 0, 0, 0, 0, 255, 255, a, b, c, d]

/-- Model of Go `net.parseIPv4`: four non-empty decimal groups, each of
value at most 255. -/
def parseIPv4 (cs : List Char) : Option IPBytes :=
  match splitAllChar '.' cs with
  | [g1, g2, g3, g4] =>
    if [g1, g2, g3, g4].all (fun g => !g.isEmpty && g.all Char.isDigit && digitsVal g ≤ 255)
    then some (v4mapped (digitsVal g1) (digitsVal g2) (digitsVal g3) (digitsVal g4))
    else none
  | _ => none

/-- Splits a character list at the first occurrence of `::`. -/
def findDoubleColon : List Char → Option (List Char × List Char)
  | [] => none
  | [_] => none
  | a :: b :: rest =>
    if a == ':' && b == ':' then some ([], rest)
    else
      match findDoubleColon (b :: rest) with
      | none => none
      | some (l, r) => some (a :: l, r)

/-- Hexadecimal value of a digit character. -/
def hexVal (c : Char) : Nat :=
  if c.isDigit then c.toNat - 48
  else if 'a' ≤ c ∧ c ≤ 'f' then c.toNat - 87
  else c.toNat - 55

/-- Is the character a hexadecimal digit? -/
def isHexDigitCh (c : Char) : Bool :=
  c.isDigit || ('a' ≤ c && c ≤ 'f') || ('A' ≤ c && c ≤ 'F')

/-- Numeric value of a hexadecimal group. -/
def hexGroupVal (g : List Char) : Nat :=
  g.foldl (fun a c => a * 16 + hexVal c) 0

/-- A valid IPv6 group: non-empty hex digits of value at most `0xFFFF`. -/
def validHexGroup (g : List Char) : Bool :=
  !g.isEmpty && g.all isHexDigitCh && hexGroupVal g ≤ 65535

/-- The two bytes of a 16-bit IPv6 group. -/
def groupBytes (g : List Char) : IPBytes :=
  [hexGroupVal g / 256, hexGroupVal g % 256]

/-- Model of Go `net.parseIPv6` restricted to plain hex-group forms
(colon-separated groups with at most one `::`; the embedded-IPv4 and
zone forms, which this client never produces, are not modelled). -/
def parseIPv6 (cs : List Char) : Option IPBytes :=
  match findDoubleColon cs with
  | none =>
    let gs := splitAllChar ':' cs
    if gs.length = 8 ∧ gs.all validHexGroup
    then some (gs.map groupBytes).flatten
    else none
  | some (l, r) =>
    if (findDoubleColon r).isSome then none
    else
      let lg := if l.isEmpty then [] else splitAllChar ':' l
      let rg := if r.isEmpty then [] else splitAllChar ':' r
      if lg.all validHexGroup ∧ rg.all validHexGroup ∧ lg.length + rg.length ≤ 7
      then some ((lg.map groupBytes).flatten
            ++ List.replicate ((8 - lg.length - rg.length) * 2) 0
            ++ (rg.map groupBytes).flatten)
      else none

/-- Model of Go `net.ParseIP`. -/
def parseIP (s : String) : Option IPBytes :=
  match firstDotOrColon s.data with
  | none => none
  | some c => if c == '.' then parseIPv4 s.data else parseIPv6 s.data

/-- Embeds `ParseIPAddr` from `ovmgmt_common.go`. -/
def parseIPAddr (s : String) : Except GoError IPBytes :=
  match parseIP s with
  | some ip => .ok ip
  | none => .error (.goErr ("can't parse ip from " ++ s))

/-- Embeds `SafeParseIP4Addr` from `ovmgmt_common.go`: falls back to
`0.0.0.0` when the address does not parse, reporting no error. -/
def safeParseIP4Addr (s : String) : IPBytes :=
  (parseIP s).getD (v4mapped 0 0 0 0)

/-- Embeds `SafeParseIP6Addr` from `ovmgmt_common.go`: falls back to
`::` when the address does not parse, reporting no error. -/
def safeParseIP6Addr (s : String) : IPBytes :=
  (parseIP s).getD (List.replicate 16 0)

/-- Index of the first occurrence of a character. -/
def indexOfChar (c : Char) : List Char → Option Nat
  | [] => none
  | a :: as =>
    if a == c then some 0
    else
      match indexOfChar c as with
      | none => none
      | some i => some (i + 1)

/-- Index of the last occurrence of a character. -/
def lastIndexOfChar (c : Char) (cs : List Char) : Option Nat :=
  match indexOfChar c cs.reverse with
  | none => none
  | some i => some (cs.length - 1 - i)

/-- Model of Go `net.SplitHostPort`, splitting `host:port` at the last
colon, with the bracket form `[host]:port` and its error cases. -/
def splitHostPort (hp : String) : Except GoError (String × String) :=
  let cs := hp.data
  match lastIndexOfChar ':' cs with
  | none => .error (.addrErr "missing port in address" hp)
  | some i =>
    let port := String.mk (cs.drop (i + 1))
    if cs.headD ' ' == '[' then
      match indexOfChar ']' cs with
      | none => .error (.addrErr "missing ']' in address" hp)
      | some e =>
        if e + 1 = cs.length then .error (.addrErr "missing port in address" hp)
        else if e + 1 = i then
          if ((cs.drop 1).contains '[') then .error (.addrErr "unexpected '[' in address" hp)
          else if ((cs.drop (e + 1)).contains ']') then .error (.addrErr "unexpected ']' in address" hp)
          else .ok (String.mk ((cs.drop 1).take (e - 1)), port)
        else if cs.getD (e + 1) ' ' == ':' then .error (.addrErr "too many colons in address" hp)
        else .error (.addrErr "missing port in address" hp)
    else
      let host := cs.take i
      if host.contains ':' then .error (.addrErr "too many colons in address" hp)
      else if cs.contains '[' then .error (.addrErr "unexpected '[' in address" hp)
      else if cs.contains ']' then .error (.addrErr "unexpected ']' in address" hp)
      else .ok (String.mk host, port)

/-- Embeds the `IPAddrPort` struct from `ovmgmt_common.go`. -/
structure IPAddrPort where
  ip : IPBytes
  port : Int
deriving DecidableEq, Repr

/-- Embeds `ParseIPAddrPort` from `ovmgmt_common.go`. -/
def parseIPAddrPort (s : String) : Except GoError IPAddrPort := do
  let (host, sPort) ← splitHostPort s
  let ip ← parseIPAddr host
  let r := atoi sPort
  match r.2 with
  | some e => throw e
  | none => return ⟨ip, r.1⟩

/-! The typed event variants and their factory functions,
from `event.go`, `bytecount_event.go` and the client-event file. -/

/-- Inserts a key into an association-list model of a Go map,
overwriting an existing binding. -/
def mapUpsert (m : List (String × String)) (k v : String) : List (String × String) :=
  if m.any (fun p => p.1 == k) then m.map (fun p => if p.1 == k then (k, v) else p)
  else m ++ [(k, v)]

/-- Embeds the `ClientEvent` struct: Go's string-typed
`ClientEventNotification` is kept as a string, the environment map as
an insertion-ordered association list. -/
structure ClientEvent where
  rawHeader : String
  ceType : String
  cid : Int
  kid : Int
  addr : String
  isAddrPri : Bool
  envs : List (String × String)
deriving DecidableEq, Repr

/-- Embeds the `ENV` collection loop of `NewClientEvent`: each line must
begin with `ENV,`; its remainder is split at the first `=` into a
key/value pair.  Stops with the accumulated map and an error on the
first line without the prefix. -/
def collectEnvs (acc : List (String × String)) : List String → List (String × String) × Option GoError
  | [] => (acc, none)
  | l :: ls =>
    if strHasPfx "ENV," l then
      let kv := stringsSplitNK (String.mk (l.data.drop 4)) '=' 2 2
      collectEnvs (mapUpsert acc (kv.getD 0 "") (kv.getD 1 "")) ls
    else (acc, some (.goErr ("no env prefix in client event line: " ++ l)))

/-- Embeds `NewClientEvent` from the client-event file for a non-empty
payload (`first` is `payload[0]`, `rest` is `payload[1:]`): header split
into at most 4 comma fields, notification-type dispatch, client id, key
id for `CONNECT`/`REAUTH`, address and primary flag for `ADDRESS`, and
the environment lines for the multi-line types. -/
def newClientEventNE (first : String) (rest : List String) : ClientEvent × Option GoError :=
  let params := stringsSplitNK first ',' 4 4
  let p0 := params.getD 0 ""
  let base : ClientEvent :=
    { rawHeader := first, ceType := p0, cid := 0, kid := 0
      addr := "", isAddrPri := false, envs := [] }
  if ¬ (p0 = "CONNECT" ∨ p0 = "REAUTH" ∨ p0 = "ESTABLISHED" ∨ p0 = "DISCONNECT" ∨ p0 = "ADDRESS") then
    ({ base with ceType := "UNKNOWN" }, some (.goErr ("unknown client event type: " ++ p0)))
  else
    let r1 := parseInt64 (params.getD 1 "")
    let c1 := { base with cid := r1.1 }
    match r1.2 with
    | some e => (c1, some e)
    | none =>
      if p0 = "CONNECT" ∨ p0 = "REAUTH" then
        let r2 := parseInt64 (params.getD 2 "")
        let c2 := { c1 with kid := r2.1 }
        match r2.2 with
        | some e => (c2, some e)
        | none =>
          let ev := collectEnvs [] rest
          ({ c2 with envs := ev.1 }, ev.2)
      else if p0 = "ADDRESS" then
        let rb := parseBool (params.getD 3 "")
        ({ c1 with addr := params.getD 2 "", isAddrPri := rb.1 }, rb.2)
      else
        let ev := collectEnvs [] rest
        ({ c1 with envs := ev.1 }, ev.2)

/-- Embeds the `Status3Client` struct from `status3_client.go`.
`realAddr` is an `Option` because the Go field is a nilable pointer. -/
structure Status3Client where
  commonName : String
  realAddr : Option IPAddrPort
  virtualAddr : IPBytes
  virtualAddr6 : IPBytes
  bytesRecv : Int
  bytesSent : Int
  connectedSinceRaw : String
  connectedSinceTimestamp : Int
  username : String
  clientId : Int
  peerId : Int
  dataChannelCipher : String
  errs : List GoError
deriving DecidableEq, Repr

/-- Parses one integer field, appending any parse error to the row's
error list (the pattern of `NewStatus3Client`/`NewStatus3Route`). -/
def accInt (s : String) (errs : List GoError) : Int × List GoError :=
  let r := parseInt64 s
  (r.1, match r.2 with | some e => errs ++ [e] | none => errs)

/-- Embeds `NewStatus3Client` from `status3_client.go`: the field list is
padded to the 12 `CLIENT_LIST` columns, every field is parsed
best-effort and each failing parse appends its error to `errs`. -/
def newStatus3Client (fields0 : List String) : Status3Client :=
  let fields := if fields0.length < 12
    then fields0 ++ List.replicate (12 - fields0.length) "" else fields0
  let f := fun i => fields.getD i ""
  let (realAddr, errs1) :=
    match parseIPAddrPort (f 1) with
    | .ok a => (some a, ([] : List GoError))
    | .error e => (none, [e])
  let (bytesRecv, errs2) := accInt (f 4) errs1
  let (bytesSent, errs3) := accInt (f 5) errs2
  let (connTS, errs4) := accInt (f 7) errs3
  let (clientId, errs5) := accInt (f 9) errs4
  let (peerId, errs6) := accInt (f 10) errs5
  { commonName := f 0
    realAddr := realAddr
    virtualAddr := safeParseIP4Addr (f 2)
    virtualAddr6 := safeParseIP6Addr (f 3)
    bytesRecv := bytesRecv
    bytesSent := bytesSent
    connectedSinceRaw := f 6
    connectedSinceTimestamp := connTS
    username := f 8
    clientId := clientId
    peerId := peerId
    dataChannelCipher := f 11
    errs := errs6 }

/-- Embeds the `Status3Route` struct from the routing-table file. -/
structure Status3Route where
  virtualAddrFlags : String
  commonName : String
  realAddr : Option IPAddrPort
  lastRefRaw : String
  lastRefTimestamp : Int
  errs : List GoError
deriving DecidableEq, Repr

/-- Embeds `NewStatus3Route`: the field list is padded to the 5
`ROUTING_TABLE` columns, the address and timestamp parsed best-effort
with errors accumulated in `errs`. -/
def newStatus3Route (fields0 : List String) : Status3Route :=
  let fields := if fields0.length < 5
    then fields0 ++ List.replicate (5 - fields0.length) "" else fields0
  let f := fun i => fields.getD i ""
  let (realAddr, errs1) :=
    match parseIPAddrPort (f 2) with
    | .ok a => (some a, ([] : List GoError))
    | .error e => (none, [e])
  let (lastRef, errs2) := accInt (f 4) errs1
  { virtualAddrFlags := f 0
    commonName := f 1
    realAddr := realAddr
    lastRefRaw := f 3
    lastRefTimestamp := lastRef
    errs := errs2 }

/-- Embeds the `Status3Event` struct from the snapshot-parsing file:
title, raw/parsed timestamps, the valid/invalid client and route row
lists, and the header/extra maps (as insertion-ordered association
lists). -/
structure Status3Event where
  title : String := ""
  rawHumanTS : String := ""
  rawTS : String := ""
  ts : Int := 0
  clients : List Status3Client := []
  invalidClients : List Status3Client := []
  routes : List Status3Route := []
  invalidRoutes : List Status3Route := []
  headers : List (String × List String) := []
  extra : List (String × List String) := []
deriving DecidableEq, Repr, Inhabited

/-- Inserts a key into an association-list model of a Go
`map[string][]string`, overwriting an existing binding. -/
def mapUpsertL (m : List (String × List String)) (k : String) (v : List String) :
    List (String × List String) :=
  if m.any (fun p => p.1 == k) then m.map (fun p => if p.1 == k then (k, v) else p)
  else m ++ [(k, v)]

/-- The row type of a snapshot line: its first tab-separated field. -/
def lineKind (line : String) : String :=
  (splitAllStr '\t' line).headD ""

/-- The remaining tab-separated fields of a snapshot line. -/
def lineRest (line : String) : List String :=
  (splitAllStr '\t' line).tail

/-- Embeds the payload loop of `NewStatus3Event`.  `none` models the Go
panics: a `TIME` line with fewer than two fields after the keyword
(`lineFields[0]`/`lineFields[1]` out of range) and a bare `HEADER` line
(`lineFields[0]` out of range).  A `TIME` timestamp parse failure
returns the event built so far together with the error, as in Go. -/
def s3Loop : List String → Status3Event → Option (Status3Event × Option GoError)
  | [], se => some (se, none)
  | line :: rest, se =>
    if lineKind line = "TITLE" then
      s3Loop rest { se with title := joinSep "\t" (lineRest line) }
    else if lineKind line = "TIME" then
      match lineRest line with
      | [] => none
      | [_] => none
      | f0 :: f1 :: _ =>
        match (parseInt64 f1).2 with
        | some e => some ({ se with rawHumanTS := f0, rawTS := f1, ts := (parseInt64 f1).1 }, some e)
        | none => s3Loop rest { se with rawHumanTS := f0, rawTS := f1, ts := (parseInt64 f1).1 }
    else if lineKind line = "HEADER" then
      match lineRest line with
      | [] => none
      | h :: hs => s3Loop rest { se with headers := mapUpsertL se.headers h hs }
    else if lineKind line = "CLIENT_LIST" then
      if (newStatus3Client (lineRest line)).errs.isEmpty then
        s3Loop rest { se with clients := se.clients ++ [newStatus3Client (lineRest line)] }
      else
        s3Loop rest { se with invalidClients := se.invalidClients ++ [newStatus3Client (lineRest line)] }
    else if lineKind line = "ROUTING_TABLE" then
      if (newStatus3Route (lineRest line)).errs.isEmpty then
        s3Loop rest { se with routes := se.routes ++ [newStatus3Route (lineRest line)] }
      else
        s3Loop rest { se with invalidRoutes := se.invalidRoutes ++ [newStatus3Route (lineRest line)] }
    else
      s3Loop rest { se with extra := mapUpsertL se.extra (lineKind line) (lineRest line) }

/-- Embeds `NewStatus3Event`: runs the payload loop on a fresh event.
`none` models a runtime panic. -/
def newStatus3Event (payload : List String) : Option (Status3Event × Option GoError) :=
  s3Loop payload {}

/-- All `CLIENT_LIST` rows of a snapshot payload, in order, as
constructed by `NewStatus3Client` (best-effort field values with the
accumulated parse errors attached). -/
def clientRowsOf (payload : List String) : List Status3Client :=
  payload.filterMap fun line =>
    if lineKind line = "CLIENT_LIST" then some (newStatus3Client (lineRest line)) else none

/-- All `ROUTING_TABLE` rows of a snapshot payload, in order, as
constructed by `NewStatus3Route`. -/
def routeRowsOf (payload : List String) : List Status3Route :=
  payload.filterMap fun line =>
    if lineKind line = "ROUTING_TABLE" then some (newStatus3Route (lineRest line)) else none

/-- A concrete `status 3` payload: one fully valid and one malformed
`CLIENT_LIST` row, one valid and one malformed `ROUTING_TABLE` row. -/
def c7Payload : List String :=
  ["TITLE\tOpenVPN 2.4.8",
   "TIME\tMon Mar 23 17:53:22 2020\t1584986002",
   "CLIENT_LIST\tcn\t1.2.3.4:80\t10.0.0.1\t::\t1\t2\td\t3\tu\t4\t5\tC",
   "CLIENT_LIST\tcn2\tgarbage",
   "ROUTING_TABLE\t10.0.0.1\tcn\t1.2.3.4:80\td\t7",
   "ROUTING_TABLE\tv\tcn\tbad\td\tx",
   "GLOBAL_STATS\tMax bcast/mcast queue length\t1"]

/-- The snapshot parsed from `c7Payload`. -/
def c7SE : Status3Event :=
  ((newStatus3Event c7Payload).getD (default, none)).1

/-- The closed set of typed event variants (Go's `Event` interface and
its implementations).  `invalid` carries the nilable origin event and
the nilable first error, mirroring the two nilable Go fields of
`InvalidEvent`. -/
inductive Ev where
  | hold (body : String)
  | log (body : String) (bodyParts : List String) (ts : Int)
  | state (body : String) (bodyParts : List String) (ts : Int)
  | echo (body : String) (ts : Int) (msg : String)
  | byteCount (body : String) (bytesIn bytesOut : Int)
  | byteCountClient (body : String) (cid bytesIn bytesOut : Int)
  | client (c : ClientEvent)
  | simple (keyword body : String)
  | unknown (keyword body : String)
  | malformed (raw : String)
  | invalid (orig : Option Ev) (firstError : Option GoError)
  | status3 (se : Status3Event)
deriving Repr

/-- The package's `ErrNoMsgFieldSep` error value. -/
def errNoMsgFieldSep : GoError := .ovpnErr "no field sep ',' found"

/-- Embeds `NewLogEvent`: body split into 3 comma fields, timestamp
parsed from the first (value `0` and the error on failure). -/
def newLogEvent (body : String) : Ev × Option GoError :=
  let parts := stringsSplitNK body ',' 3 3
  let r := parseInt64 (parts.getD 0 "")
  (.log body parts r.1, r.2)

/-- Embeds `NewStateEvent`: body split into at most 9, at least 5 comma
fields, timestamp parsed from the first. -/
def newStateEvent (body : String) : Ev × Option GoError :=
  let parts := stringsSplitNK body ',' 9 5
  let r := parseInt64 (parts.getD 0 "")
  (.state body parts r.1, r.2)

/-- Embeds `NewEchoEvent`: requires a comma separator (else
`ErrNoMsgFieldSep`), message is everything after it, timestamp parsed
from what precedes it. -/
def newEchoEvent (body : String) : Ev × Option GoError :=
  match breakOn ',' body.data with
  | none => (.echo body 0 "", some errNoMsgFieldSep)
  | some pr =>
    let r := parseInt64 (String.mk pr.1)
    (.echo body r.1 (String.mk pr.2), r.2)

/-- Embeds `NewByteCountEvent`: body split into exactly 2 comma fields
(padded), both parsed as integers with the first failure returned. -/
def newByteCountEvent (body : String) : Ev × Option GoError :=
  let parts := stringsSplitNK body ',' 2 2
  let r1 := parseInt64 (parts.getD 0 "")
  match r1.2 with
  | some e => (.byteCount body r1.1 0, some e)
  | none =>
    let r2 := parseInt64 (parts.getD 1 "")
    (.byteCount body r1.1 r2.1, r2.2)

/-- Embeds `NewByteCountClientEvent`: 3 comma fields, client id then the
two counters, first failure returned. -/
def newByteCountClientEvent (body : String) : Ev × Option GoError :=
  let parts := stringsSplitNK body ',' 3 3
  let r1 := parseInt64 (parts.getD 0 "")
  match r1.2 with
  | some e => (.byteCountClient body r1.1 0 0, some e)
  | none =>
    let r2 := parseInt64 (parts.getD 1 "")
    match r2.2 with
    | some e => (.byteCountClient body r1.1 r2.1 0, some e)
    | none =>
      let r3 := parseInt64 (parts.getD 2 "")
      (.byteCountClient body r1.1 r2.1 r3.1, r3.2)

/-- Lifts `newClientEventNE` into the event sum. -/
def clientEvPair (first : String) (rest : List String) : Ev × Option GoError :=
  (.client (newClientEventNE first rest).1, (newClientEventNE first rest).2)

/-- The factory tail shared by every fallible constructor call: a
non-nil error wraps the best-effort event in `NewInvalidEvent`. -/
def wrapIfErr (p : Ev × Option GoError) : Ev :=
  match p.2 with
  | some e => .invalid (some p.1) (some e)
  | none => p.1

/-- Embeds `upgradeEvent` from `event_test.go`: keyword dispatch to the
typed constructors, `Malformed` for the empty keyword, `Simple` for the
structureless notifications, `Unknown` otherwise. -/
def upgradeEvent (keyword body : String) : Ev :=
  if keyword = "" then .malformed body
  else if keyword = "LOG" then wrapIfErr (newLogEvent body)
  else if keyword = "STATE" then wrapIfErr (newStateEvent body)
  else if keyword = "HOLD" then .hold body
  else if keyword = "ECHO" then wrapIfErr (newEchoEvent body)
  else if keyword = "BYTECOUNT" then wrapIfErr (newByteCountEvent body)
  else if keyword = "BYTECOUNT_CLI" then wrapIfErr (newByteCountClientEvent body)
  else if keyword = "CLIENT" then wrapIfErr (clientEvPair body [])
  else if keyword = "INFO" ∨ keyword = "NEED-OK" ∨ keyword = "NEED-STR"
       ∨ keyword = "PASSWORD" ∨ keyword = "FATAL" then .simple keyword body
  else .unknown keyword body

/-- Embeds `upgradeMultilineEvent`: `none` models the Go panic of
`NewClientEvent` on an empty payload slice. -/
def upgradeMultilineEvent (keyword : String) (body : List String) : Option Ev :=
  if keyword = "" then some (.malformed (joinSep "\n" body))
  else if keyword = "CLIENT" then
    match body with
    | [] => none
    | h :: t => some (wrapIfErr (clientEvPair h t))
  else some (.unknown keyword (joinSep "\n" body))

/-- The single-line end marker (`emSingleLine`). -/
def emSingleLine : String := ""

/-- The client multi-line end marker (`emClient = "CLIENT:ENV,END"`). -/
def emClient : String := "CLIENT:ENV,END"

/-- Embeds `splitEvent`: a line without `:` is `(single-line, "", line)`;
otherwise the keyword precedes the first `:` and the body follows it,
and a `CLIENT` keyword whose body begins with `CONNECT`, `REAUTH`,
`ESTABLISHED`, `DISCONNECT` or `ENV` gets the client multi-line end
marker. -/
def splitEvent (line : String) : String × String × String :=
  match breakOn ':' line.data with
  | none => (emSingleLine, "", line)
  | some pr =>
    let keyword := String.mk pr.1
    let body := String.mk pr.2
    if keyword = "CLIENT"
       ∧ (strHasPfx "CONNECT" body || strHasPfx "REAUTH" body
          || strHasPfx "ESTABLISHED" body || strHasPfx "DISCONNECT" body
          || strHasPfx "ENV" body) = true
    then (emClient, keyword, body)
    else (emSingleLine, keyword, body)

/-- The event assembler's state: the keyword of the open multi-line
buffer (`""` when idle) and the buffered body lines. -/
structure ScanState where
  bufKW : String
  buf : List String
deriving DecidableEq, Repr

/-- Embeds one iteration of the `eventScanner` loop: the returned list
is what is pushed to the delivery lane, in order, and the returned state
is the buffer state afterwards.  `none` models a panic while flushing.

Branches, exactly as in the Go loop body: a single-line event is emitted
first and then a non-empty buffer is flushed; a line equal to the end
marker flushes the buffer; otherwise the line is a continuation, opening
or extending the buffer, except that a keyword mismatch flushes the old
buffer and emits the new line via the single-line factory. -/
def scanStep (st : ScanState) (raw : String) : Option (ScanState × List Ev) :=
  let em := (splitEvent raw).1
  let keyword := (splitEvent raw).2.1
  let body := (splitEvent raw).2.2
  if em = emSingleLine then
    if st.buf ≠ [] ∨ st.bufKW ≠ "" then
      match upgradeMultilineEvent st.bufKW st.buf with
      | none => none
      | some fl => some (⟨"", []⟩, [upgradeEvent keyword body, fl])
    else some (st, [upgradeEvent keyword body])
  else if raw = em then
    match upgradeMultilineEvent st.bufKW st.buf with
    | none => none
    | some fl => some (⟨"", []⟩, [fl])
  else if st.bufKW = "" then some (⟨keyword, st.buf ++ [body]⟩, [])
  else if st.bufKW ≠ keyword then
    match upgradeMultilineEvent st.bufKW st.buf with
    | none => none
    | some fl => some (⟨"", []⟩, [fl, upgradeEvent keyword body])
  else some (⟨st.bufKW, st.buf ++ [body]⟩, [])

/-- Embeds the whole `eventScanner` loop over a finite event-lane
prefix followed by lane closure: the result is everything delivered on
the event channel before it is closed.  When the input list is
exhausted the Go loop falls through to `close(c.eventSink)` directly,
emitting nothing further. -/
def eventScannerGo : ScanState → List String → Option (List Ev)
  | _, [] => some []
  | st, raw :: rest =>
    match scanStep st raw with
    | none => none
    | some (st', evs) =>
      match eventScannerGo st' rest with
      | none => none
      | some more => some (evs ++ more)

/-- The factory applied to one raw event-lane line, as the scanner and
the package tests do: `splitEvent` then `upgradeEvent`. -/
def upgradeLine (raw : String) : Ev :=
  upgradeEvent (splitEvent raw).2.1 (splitEvent raw).2.2

/-- `Raw()` restricted to the `Malformed` variant (Go
`MalformedEvent.Raw` returns the stored raw line verbatim); other
variants are not needed by the claims and yield `none`. -/
def evRawOfMalformed : Ev → Option String
  | .malformed r => some r
  | _ => none

/-- Embeds the argument validation of `MgmtClient.SetVerbosityLevel`:
`.ok` carries the command text written to the transport, `.error` the
error returned without any write. -/
def setVerbosityLevelCmd (level : Int) : Except GoError String :=
  if level > 0 ∧ level < 16 then .ok ("verb " ++ toString level)
  else .error (.goErr ("bad verbosity level '" ++ toString level ++ "', should be from 0 to 15"))

/-- Embeds `LatestStatus3` as a function of the command outcome: a
failed `sendCommand`/`readCommandResponsePayload` gives `(nil, err)`;
otherwise the payload is parsed and the (non-nil) snapshot returned
with any parse error.  The outer `none` models a parse panic. -/
def latestStatus3 (commandErr : Option GoError) (payload : List String) :
    Option (Option Status3Event × Option GoError) :=
  match commandErr with
  | some e => some (none, some e)
  | none =>
    match newStatus3Event payload with
    | none => none
    | some (se, err) => some (some se, err)

/-- Embeds the emission of `generateStatus3Event`: a non-nil event with
nil error is pushed as is, anything else is wrapped in
`NewInvalidEvent(evt, err)`. -/
def generateStatus3Emit : Option Status3Event × Option GoError → Ev
  | (some se, none) => .status3 se
  | (evt, err) => .invalid (evt.map .status3) err

/-! Claim theorems. -/

/-- C1: the `status 3` snapshot parser is not total: a truncated `TIME`
line (with fewer than two fields after the keyword) makes
`NewStatus3Event` index past the end of the field slice and panic,
instead of degrading to a typed result. -/
theorem c1_status3_time_panics :
    newStatus3Event ["TIME"] = none ∧
    newStatus3Event ["TIME\tMon Mar 23 17:53:22 2020"] = none :=
  ⟨rfl, rfl⟩

/-- C2 counterexample: closing the event lane while a multi-line buffer
is open (here after a lone `CLIENT:CONNECT,1,2` line) delivers nothing:
the buffered block's event, which `upgradeMultilineEvent` would build,
is never emitted before the delivery lane closes. -/
theorem c2_counterexample :
    eventScannerGo ⟨"", []⟩ ["CLIENT:CONNECT,1,2"] = some [] ∧
    upgradeMultilineEvent "CLIENT" ["CONNECT,1,2"] =
      some (.client ⟨"CONNECT,1,2", "CONNECT", 1, 2, "", false, []⟩) ∧
    ([] : List Ev) ≠ [.client ⟨"CONNECT,1,2", "CONNECT", 1, 2, "", false, []⟩] :=
  ⟨rfl, rfl, by simp⟩

/-- C2 as amended: when the event lane closes, the scanner emits nothing
further and closes the delivery lane — an open multi-line buffer is
discarded, not flushed; even a well-formed unterminated block delivers
no event. -/
theorem c2_amended_no_flush_on_close :
    (∀ st : ScanState, eventScannerGo st [] = some []) ∧
    eventScannerGo ⟨"", []⟩ ["CLIENT:CONNECT,7,2", "CLIENT:ENV,foo=bar"] = some [] :=
  ⟨fun _ => rfl, rfl⟩

/-- C3 counterexample: when the `status 3` command itself fails,
`LatestStatus3` yields a nil event with the error, and
`generateStatus3Event` then constructs an `InvalidEvent` whose origin is
nil. -/
theorem c3_counterexample :
    latestStatus3 (some (.goErr "connection closed before END recieved")) [] =
      some (none, some (.goErr "connection closed before END recieved")) ∧
    generateStatus3Emit (none, some (.goErr "connection closed before END recieved")) =
      Ev.invalid none (some (.goErr "connection closed before END recieved")) :=
  ⟨rfl, rfl⟩

/-- C4: `SetVerbosityLevel` contradicts its own documentation and error
message ("should be from 0 to 15"): level 0 is rejected before any
write, while 1 and 15 are accepted and 16 rejected. -/
theorem c4_rejects_level_zero :
    setVerbosityLevelCmd 0 =
      .error (.goErr "bad verbosity level '0', should be from 0 to 15") ∧
    setVerbosityLevelCmd 1 = .ok "verb 1" ∧
    setVerbosityLevelCmd 15 = .ok "verb 15" ∧
    setVerbosityLevelCmd 16 =
      .error (.goErr "bad verbosity level '16', should be from 0 to 15") := by
  refine ⟨?_, ?_, ?_, ?_⟩ <;> simp [setVerbosityLevelCmd] <;> decide

/-- C5 counterexample: a single-line `HOLD` event arriving while a
`CLIENT` buffer is open is delivered *before* the flushed buffered
event, not after it. -/
theorem c5_counterexample :
    eventScannerGo ⟨"", []⟩ ["CLIENT:CONNECT,1,2", "HOLD:waiting"] =
      some [Ev.hold "waiting", .client ⟨"CONNECT,1,2", "CONNECT", 1, 2, "", false, []⟩] ∧
    Ev.hold "waiting" ≠ Ev.client ⟨"CONNECT,1,2", "CONNECT", 1, 2, "", false, []⟩ :=
  ⟨rfl, fun h => Ev.noConfusion h⟩

/-- C6 counterexample: a `CLIENT` continuation line arriving while a
buffer is open under a different keyword flushes the old buffer and then
emits the new line immediately through the single-line factory; no new
buffer is started — the machine returns to the idle state, not to a
buffer holding the line. -/
theorem c6_counterexample :
    scanStep ⟨"FOO", ["x"]⟩ "CLIENT:ENV,a=b" =
      some (⟨"", []⟩,
        [Ev.unknown "FOO" "x",
         Ev.invalid (some (.client ⟨"ENV,a=b", "UNKNOWN", 0, 0, "", false, []⟩))
           (some (.goErr "unknown client event type: ENV"))]) ∧
    ScanState.mk "" [] ≠ ScanState.mk "CLIENT" ["ENV,a=b"] :=
  ⟨rfl, by decide⟩

/-- C8 counterexample: the line `":foo"` contains the separator with an
empty keyword; the factory still produces a `Malformed` event, but its
`Raw()` is the body `"foo"`, not the input line `":foo"` — verbatim
preservation fails for this `Malformed` event. -/
theorem c8_counterexample :
    upgradeLine ":foo" = Ev.malformed "foo" ∧
    evRawOfMalformed (Ev.malformed "foo") = some "foo" ∧
    "foo" ≠ ":foo" :=
  ⟨rfl, rfl, by decide⟩

/-- C9: `BYTECOUNT:123,456` parses to a `ByteCount` event with 123 in
and 456 out; `BYTECOUNT:1,2,3` yields `Invalid` wrapping a `ByteCount`
origin with `BytesIn() = 1`, the error being the integer-parse failure
of the second slot `"2,3"` produced by the fixed 2-field split. -/
theorem c9_bytecount :
    upgradeLine "BYTECOUNT:123,456" = Ev.byteCount "123,456" 123 456 ∧
    upgradeLine "BYTECOUNT:1,2,3" =
      Ev.invalid (some (.byteCount "1,2,3" 1 0)) (some (.numSyntax "ParseInt" "2,3")) :=
  ⟨rfl, rfl⟩

/-- A separator character absent from a list is never found. -/
theorem breakOn_of_not_mem (sep : Char) (cs : List Char) (h : sep ∉ cs) :
    breakOn sep cs = none := by
  induction cs with
  | nil => rfl
  | cons c cs ih =>
    have h1 : ¬ (c == sep) = true := by
      simp only [beq_iff_eq]
      exact fun e => h (e ▸ List.mem_cons_self c cs)
    have h2 : sep ∉ cs := fun e => h (List.mem_cons_of_mem c e)
    simp only [breakOn, if_neg h1, ih h2]

/-- C8 as amended: for every input line lacking the keyword/body
separator `:`, the factory produces a `Malformed` event whose stored
raw text (`Raw()`) is exactly the input line.  (The verbatim-raw
guarantee holds for these lines; a line with the separator but an empty
keyword also yields `Malformed`, yet keeps only the body.) -/
theorem c8_amended_malformed_raw :
    ∀ line : String, ':' ∉ line.data →
      upgradeLine line = Ev.malformed line ∧
      evRawOfMalformed (upgradeLine line) = some line := by
  intro line h
  have hb := breakOn_of_not_mem ':' line.data h
  have h1 : upgradeLine line = Ev.malformed line := by
    simp [upgradeLine, splitEvent, hb, upgradeEvent]
  exact ⟨h1, by rw [h1]; rfl⟩

/-- C8 witness: the separator-less line `"HTTP/1.1 200 OK"` becomes a
`Malformed` event preserving the line. -/
theorem c8_amended_malformed_raw_witness :
    upgradeLine "HTTP/1.1 200 OK" = Ev.malformed "HTTP/1.1 200 OK" ∧
    evRawOfMalformed (upgradeLine "HTTP/1.1 200 OK") = some "HTTP/1.1 200 OK" :=
  c8_amended_malformed_raw "HTTP/1.1 200 OK" (by decide)

/-- C5 as amended: when a single-line-framed event arrives while a
multi-line buffer is open, the new single-line event is emitted first
and the open buffer is flushed after it (so the single-line event
precedes the buffered event on the delivery lane), and the machine
returns to the idle state. -/
theorem c5_amended_single_line_first :
    ∀ (st : ScanState) (raw kw body : String) (fl : Ev),
      splitEvent raw = (emSingleLine, kw, body) →
      st.buf ≠ [] ∨ st.bufKW ≠ "" →
      upgradeMultilineEvent st.bufKW st.buf = some fl →
      scanStep st raw = some (⟨"", []⟩, [upgradeEvent kw body, fl]) := by
  intro st raw kw body fl hs hb hf
  simp [scanStep, hs, hf, if_pos hb]

/-- C5 witness: at the state buffering `CLIENT:CONNECT,1,2`, the
single-line `HOLD:waiting` is delivered first, then the flushed client
event, and the buffer is reset. -/
theorem c5_amended_single_line_first_witness :
    scanStep ⟨"CLIENT", ["CONNECT,1,2"]⟩ "HOLD:waiting" =
      some (⟨"", []⟩, [upgradeEvent "HOLD" "waiting",
        Ev.client ⟨"CONNECT,1,2", "CONNECT", 1, 2, "", false, []⟩]) :=
  c5_amended_single_line_first ⟨"CLIENT", ["CONNECT,1,2"]⟩ "HOLD:waiting" "HOLD" "waiting"
    (Ev.client ⟨"CONNECT,1,2", "CONNECT", 1, 2, "", false, []⟩) rfl (by decide) rfl

/-- C6 as amended: a multi-line continuation line arriving while a
buffer is open under a different keyword flushes the existing buffer as
a completed event and then emits the new line immediately through the
single-line factory — the line is *not* buffered and the machine
returns to the idle state; neither message is dropped. -/
theorem c6_amended_mismatch_emits_single :
    ∀ (st : ScanState) (raw kw body : String) (fl : Ev),
      splitEvent raw = (emClient, kw, body) →
      raw ≠ emClient →
      st.bufKW ≠ "" →
      st.bufKW ≠ kw →
      upgradeMultilineEvent st.bufKW st.buf = some fl →
      scanStep st raw = some (⟨"", []⟩, [fl, upgradeEvent kw body]) := by
  intro st raw kw body fl hs hraw hk hkk hf
  simp [scanStep, hs, hf, if_neg hk, if_pos hkk, emClient, emSingleLine]
  exact hraw

/-- C6 witness: at a state buffering under keyword `FOO`, the line
`CLIENT:ENV,c=d` flushes the `FOO` buffer and is emitted as a
single-line-parsed event, leaving the machine idle. -/
theorem c6_amended_mismatch_emits_single_witness :
    scanStep ⟨"FOO", ["x"]⟩ "CLIENT:ENV,c=d" =
      some (⟨"", []⟩, [Ev.unknown "FOO" "x", upgradeEvent "CLIENT" "ENV,c=d"]) :=
  c6_amended_mismatch_emits_single ⟨"FOO", ["x"]⟩ "CLIENT:ENV,c=d" "CLIENT" "ENV,c=d"
    (Ev.unknown "FOO" "x") rfl (by decide) (by decide) (by decide) rfl

/-- C10: a line with keyword `CLIENT` is classified multi-line-framed
(gets the client end marker) iff its body begins with `CONNECT`,
`REAUTH`, `ESTABLISHED`, `DISCONNECT` or `ENV`; in particular
`CLIENT:ADDRESS,...` and an unrecognized subtype are single-line. -/
theorem c10_client_framing :
    (∀ body : String,
      (splitEvent ("CLIENT:" ++ body)).1 = emClient ↔
        (strHasPfx "CONNECT" body || strHasPfx "REAUTH" body
         || strHasPfx "ESTABLISHED" body || strHasPfx "DISCONNECT" body
         || strHasPfx "ENV" body) = true) ∧
    (splitEvent "CLIENT:ADDRESS,1,1.2.3.4,1").1 = emSingleLine ∧
    (splitEvent "CLIENT:FOO,9").1 = emSingleLine := by
  refine ⟨?_, rfl, rfl⟩
  intro body
  obtain ⟨bd⟩ := body
  have key : splitEvent ("CLIENT:" ++ String.mk bd)
      = if ("CLIENT" : String) = "CLIENT"
           ∧ (strHasPfx "CONNECT" (String.mk bd) || strHasPfx "REAUTH" (String.mk bd)
              || strHasPfx "ESTABLISHED" (String.mk bd) || strHasPfx "DISCONNECT" (String.mk bd)
              || strHasPfx "ENV" (String.mk bd)) = true
        then (emClient, "CLIENT", String.mk bd)
        else (emSingleLine, "CLIENT", String.mk bd) := rfl
  rw [key]
  by_cases hc : (strHasPfx "CONNECT" (String.mk bd) || strHasPfx "REAUTH" (String.mk bd)
      || strHasPfx "ESTABLISHED" (String.mk bd) || strHasPfx "DISCONNECT" (String.mk bd)
      || strHasPfx "ENV" (String.mk bd)) = true
  · rw [if_pos ⟨rfl, hc⟩]
    simpa using hc
  · rw [if_neg (fun hh => hc hh.2)]
    constructor
    · intro h
      exact absurd h (by simp [emSingleLine, emClient])
    · intro h
      exact absurd h hc

/-- `wrapIfErr` produces an `invalid` event only by wrapping, in which
case both the origin and the error are present. -/
theorem wrapIfErr_invalid_of (p : Ev × Option GoError)
    (hne : ∀ o e, p.1 ≠ Ev.invalid o e) (o : Option Ev) (e : Option GoError)
    (h : wrapIfErr p = Ev.invalid o e) : o.isSome ∧ e.isSome := by
  cases hp : p.2 with
  | some e' =>
    have hw : wrapIfErr p = .invalid (some p.1) (some e') := by
      unfold wrapIfErr
      rw [hp]
    rw [hw] at h
    injection h with h1 h2
    subst h1
    subst h2
    exact ⟨rfl, rfl⟩
  | none =>
    have hw : wrapIfErr p = p.1 := by
      unfold wrapIfErr
      rw [hp]
    rw [hw] at h
    exact absurd h (hne o e)

/-- The log constructor never builds an `invalid` event itself. -/
theorem newLogEvent_not_inv (body : String) (o : Option Ev) (e : Option GoError) :
    (newLogEvent body).1 ≠ Ev.invalid o e := by
  simp [newLogEvent]

/-- The state constructor never builds an `invalid` event itself. -/
theorem newStateEvent_not_inv (body : String) (o : Option Ev) (e : Option GoError) :
    (newStateEvent body).1 ≠ Ev.invalid o e := by
  simp [newStateEvent]

/-- The echo constructor never builds an `invalid` event itself. -/
theorem newEchoEvent_not_inv (body : String) (o : Option Ev) (e : Option GoError) :
    (newEchoEvent body).1 ≠ Ev.invalid o e := by
  unfold newEchoEvent
  cases breakOn ',' body.data with
  | none => simp
  | some pr => simp

/-- The byte-count constructor never builds an `invalid` event itself. -/
theorem newByteCountEvent_not_inv (body : String) (o : Option Ev) (e : Option GoError) :
    (newByteCountEvent body).1 ≠ Ev.invalid o e := by
  cases hr : (parseInt64 ((stringsSplitNK body ',' 2 2).getD 0 "")).2 with
  | some e' =>
    simp only [newByteCountEvent]
    rw [hr]
    simp
  | none =>
    simp only [newByteCountEvent]
    rw [hr]
    simp

/-- The per-client byte-count constructor never builds an `invalid`
event itself. -/
theorem newByteCountClientEvent_not_inv (body : String) (o : Option Ev) (e : Option GoError) :
    (newByteCountClientEvent body).1 ≠ Ev.invalid o e := by
  cases hr1 : (parseInt64 ((stringsSplitNK body ',' 3 3).getD 0 "")).2 with
  | some e' =>
    simp only [newByteCountClientEvent]
    rw [hr1]
    simp
  | none =>
    cases hr2 : (parseInt64 ((stringsSplitNK body ',' 3 3).getD 1 "")).2 with
    | some e' =>
      simp only [newByteCountClientEvent]
      rw [hr1, hr2]
      simp
    | none =>
      simp only [newByteCountClientEvent]
      rw [hr1, hr2]
      simp

/-- The client constructor never builds an `invalid` event itself. -/
theorem clientEvPair_not_inv (first : String) (rest : List String)
    (o : Option Ev) (e : Option GoError) :
    (clientEvPair first rest).1 ≠ Ev.invalid o e := by
  simp [clientEvPair]

/-- C3 as amended: every `InvalidEvent` constructed by the event
factory — `upgradeEvent` on a single line or `upgradeMultilineEvent`
on a buffered block — carries a non-nil origin and a non-nil error.
(The status-poller path, by contrast, constructs an `InvalidEvent`
with a nil origin when the `status 3` command itself fails, which
`InvalidEvent.Raw` tolerates by returning the empty string.) -/
theorem c3_amended_factory_invalid_origins :
    (∀ (kw body : String) (o : Option Ev) (e : Option GoError),
       upgradeEvent kw body = .invalid o e → o.isSome ∧ e.isSome) ∧
    (∀ (kw : String) (lines : List String) (o : Option Ev) (e : Option GoError),
       upgradeMultilineEvent kw lines = some (.invalid o e) → o.isSome ∧ e.isSome) := by
  constructor
  · intro kw body o e h
    unfold upgradeEvent at h
    split_ifs at h
    · exact wrapIfErr_invalid_of _ (newLogEvent_not_inv body) o e h
    · exact wrapIfErr_invalid_of _ (newStateEvent_not_inv body) o e h
    · exact wrapIfErr_invalid_of _ (newEchoEvent_not_inv body) o e h
    · exact wrapIfErr_invalid_of _ (newByteCountEvent_not_inv body) o e h
    · exact wrapIfErr_invalid_of _ (newByteCountClientEvent_not_inv body) o e h
    · exact wrapIfErr_invalid_of _ (clientEvPair_not_inv body []) o e h
  · intro kw lines o e h
    unfold upgradeMultilineEvent at h
    split_ifs at h
    · exact absurd h (by simp)
    · cases lines with
      | nil => exact absurd h (by simp)
      | cons a t =>
        rw [Option.some_inj] at h
        exact wrapIfErr_invalid_of _ (clientEvPair_not_inv a t) o e h
    · exact absurd h (by simp)

/-- C3 witness: `ECHO:` (empty body) yields an `Invalid` event from the
factory, and the amended invariant gives that its origin and error are
both present. -/
theorem c3_amended_factory_invalid_origins_witness :
    (some (Ev.echo "" 0 "")).isSome ∧ (some errNoMsgFieldSep).isSome :=
  c3_amended_factory_invalid_origins.1 "ECHO" "" (some (.echo "" 0 ""))
    (some errNoMsgFieldSep) rfl

/-- A line that is not a `CLIENT_LIST` row contributes no client row. -/
theorem clientRowsOf_cons_of_ne (line : String) (rest : List String)
    (h : ¬ lineKind line = "CLIENT_LIST") :
    clientRowsOf (line :: rest) = clientRowsOf rest := by
  simp [clientRowsOf, List.filterMap_cons, h]

/-- A `CLIENT_LIST` line contributes exactly its constructed row. -/
theorem clientRowsOf_cons_of_eq (line : String) (rest : List String)
    (h : lineKind line = "CLIENT_LIST") :
    clientRowsOf (line :: rest) = newStatus3Client (lineRest line) :: clientRowsOf rest := by
  simp [clientRowsOf, List.filterMap_cons, h]

/-- A line that is not a `ROUTING_TABLE` row contributes no route row. -/
theorem routeRowsOf_cons_of_ne (line : String) (rest : List String)
    (h : ¬ lineKind line = "ROUTING_TABLE") :
    routeRowsOf (line :: rest) = routeRowsOf rest := by
  simp [routeRowsOf, List.filterMap_cons, h]

/-- A `ROUTING_TABLE` line contributes exactly its constructed row. -/
theorem routeRowsOf_cons_of_eq (line : String) (rest : List String)
    (h : lineKind line = "ROUTING_TABLE") :
    routeRowsOf (line :: rest) = newStatus3Route (lineRest line) :: routeRowsOf rest := by
  simp [routeRowsOf, List.filterMap_cons, h]

/-- Loop invariant of the snapshot parser: on a successful error-free
run, the four row lists extend the accumulator by exactly the rows of
the processed lines, partitioned by emptiness of their error lists. -/
theorem s3Loop_partition (lines : List String) :
    ∀ (se0 se : Status3Event), s3Loop lines se0 = some (se, none) →
      se.clients = se0.clients ++ (clientRowsOf lines).filter (fun c => c.errs.isEmpty) ∧
      se.invalidClients
        = se0.invalidClients ++ (clientRowsOf lines).filter (fun c => !c.errs.isEmpty) ∧
      se.routes = se0.routes ++ (routeRowsOf lines).filter (fun r => r.errs.isEmpty) ∧
      se.invalidRoutes
        = se0.invalidRoutes ++ (routeRowsOf lines).filter (fun r => !r.errs.isEmpty) := by
  induction lines with
  | nil =>
    intro se0 se h
    rw [s3Loop, Option.some_inj, Prod.mk.injEq] at h
    obtain ⟨rfl, -⟩ := h
    simp [clientRowsOf, routeRowsOf]
  | cons line rest ih =>
    intro se0 se h
    rw [s3Loop] at h
    by_cases hT : lineKind line = "TITLE"
    · rw [if_pos hT] at h
      have hC := clientRowsOf_cons_of_ne line rest (by rw [hT]; decide)
      have hR := routeRowsOf_cons_of_ne line rest (by rw [hT]; decide)
      obtain ⟨h1, h2, h3, h4⟩ := ih _ _ h
      exact ⟨by rw [hC]; exact h1, by rw [hC]; exact h2,
        by rw [hR]; exact h3, by rw [hR]; exact h4⟩
    rw [if_neg hT] at h
    by_cases hTi : lineKind line = "TIME"
    · rw [if_pos hTi] at h
      have hC := clientRowsOf_cons_of_ne line rest (by rw [hTi]; decide)
      have hR := routeRowsOf_cons_of_ne line rest (by rw [hTi]; decide)
      split at h
      · exact absurd h (by simp)
      · exact absurd h (by simp)
      · split at h
        · exact absurd h (by simp)
        · obtain ⟨h1, h2, h3, h4⟩ := ih _ _ h
          exact ⟨by rw [hC]; exact h1, by rw [hC]; exact h2,
            by rw [hR]; exact h3, by rw [hR]; exact h4⟩
    rw [if_neg hTi] at h
    by_cases hH : lineKind line = "HEADER"
    · rw [if_pos hH] at h
      have hC := clientRowsOf_cons_of_ne line rest (by rw [hH]; decide)
      have hR := routeRowsOf_cons_of_ne line rest (by rw [hH]; decide)
      split at h
      · exact absurd h (by simp)
      · obtain ⟨h1, h2, h3, h4⟩ := ih _ _ h
        exact ⟨by rw [hC]; exact h1, by rw [hC]; exact h2,
          by rw [hR]; exact h3, by rw [hR]; exact h4⟩
    rw [if_neg hH] at h
    by_cases hCL : lineKind line = "CLIENT_LIST"
    · rw [if_pos hCL] at h
      have hC := clientRowsOf_cons_of_eq line rest hCL
      have hR := routeRowsOf_cons_of_ne line rest (by rw [hCL]; decide)
      by_cases hE : (newStatus3Client (lineRest line)).errs.isEmpty = true
      · rw [if_pos hE] at h
        obtain ⟨h1, h2, h3, h4⟩ := ih _ _ h
        have h1' : se.clients
            = (se0.clients ++ [newStatus3Client (lineRest line)])
              ++ (clientRowsOf rest).filter (fun c => c.errs.isEmpty) := h1
        have h2' : se.invalidClients
            = se0.invalidClients ++ (clientRowsOf rest).filter (fun c => !c.errs.isEmpty) := h2
        refine ⟨?_, ?_, by rw [hR]; exact h3, by rw [hR]; exact h4⟩
        · rw [h1', hC, List.filter_cons]
          simp [hE, List.append_assoc]
        · rw [h2', hC, List.filter_cons]
          simp [hE]
      · rw [if_neg hE] at h
        obtain ⟨h1, h2, h3, h4⟩ := ih _ _ h
        have h1' : se.clients
            = se0.clients ++ (clientRowsOf rest).filter (fun c => c.errs.isEmpty) := h1
        have h2' : se.invalidClients
            = (se0.invalidClients ++ [newStatus3Client (lineRest line)])
              ++ (clientRowsOf rest).filter (fun c => !c.errs.isEmpty) := h2
        refine ⟨?_, ?_, by rw [hR]; exact h3, by rw [hR]; exact h4⟩
        · rw [h1', hC, List.filter_cons]
          simp [hE]
        · rw [h2', hC, List.filter_cons]
          simp [hE, List.append_assoc]
    rw [if_neg hCL] at h
    by_cases hRT : lineKind line = "ROUTING_TABLE"
    · rw [if_pos hRT] at h
      have hC := clientRowsOf_cons_of_ne line rest (by rw [hRT]; decide)
      have hR := routeRowsOf_cons_of_eq line rest hRT
      by_cases hE : (newStatus3Route (lineRest line)).errs.isEmpty = true
      · rw [if_pos hE] at h
        obtain ⟨h1, h2, h3, h4⟩ := ih _ _ h
        have h3' : se.routes
            = (se0.routes ++ [newStatus3Route (lineRest line)])
              ++ (routeRowsOf rest).filter (fun r => r.errs.isEmpty) := h3
        have h4' : se.invalidRoutes
            = se0.invalidRoutes ++ (routeRowsOf rest).filter (fun r => !r.errs.isEmpty) := h4
        refine ⟨by rw [hC]; exact h1, by rw [hC]; exact h2, ?_, ?_⟩
        · rw [h3', hR, List.filter_cons]
          simp [hE, List.append_assoc]
        · rw [h4', hR, List.filter_cons]
          simp [hE]
      · rw [if_neg hE] at h
        obtain ⟨h1, h2, h3, h4⟩ := ih _ _ h
        have h3' : se.routes
            = se0.routes ++ (routeRowsOf rest).filter (fun r => r.errs.isEmpty) := h3
        have h4' : se.invalidRoutes
            = (se0.invalidRoutes ++ [newStatus3Route (lineRest line)])
              ++ (routeRowsOf rest).filter (fun r => !r.errs.isEmpty) := h4
        refine ⟨by rw [hC]; exact h1, by rw [hC]; exact h2, ?_, ?_⟩
        · rw [h3', hR, List.filter_cons]
          simp [hE]
        · rw [h4', hR, List.filter_cons]
          simp [hE, List.append_assoc]
    rw [if_neg hRT] at h
    have hC := clientRowsOf_cons_of_ne line rest hCL
    have hR := routeRowsOf_cons_of_ne line rest hRT
    obtain ⟨h1, h2, h3, h4⟩ := ih _ _ h
    exact ⟨by rw [hC]; exact h1, by rw [hC]; exact h2,
      by rw [hR]; exact h3, by rw [hR]; exact h4⟩

/-- C7: on an error-free snapshot parse, row-level validation
partitions the `CLIENT_LIST` and `ROUTING_TABLE` rows: the valid lists
contain exactly the constructed rows with no recorded field-parse
error, and the invalid lists exactly the constructed rows with at
least one — each row crossing in full, with its best-effort field
values and its error list (`clientRowsOf`/`routeRowsOf` are the
as-constructed rows). -/
theorem c7_partition :
    ∀ (payload : List String) (se : Status3Event),
      newStatus3Event payload = some (se, none) →
      se.clients = (clientRowsOf payload).filter (fun c => c.errs.isEmpty) ∧
      se.invalidClients = (clientRowsOf payload).filter (fun c => !c.errs.isEmpty) ∧
      se.routes = (routeRowsOf payload).filter (fun r => r.errs.isEmpty) ∧
      se.invalidRoutes = (routeRowsOf payload).filter (fun r => !r.errs.isEmpty) := by
  intro payload se h
  obtain ⟨h1, h2, h3, h4⟩ := s3Loop_partition payload {} se h
  simpa using ⟨h1, h2, h3, h4⟩

/-- C7 witness: on the concrete payload, the parse succeeds error-free
and the partition equalities hold. -/
theorem c7_partition_witness :
    c7SE.clients = (clientRowsOf c7Payload).filter (fun c => c.errs.isEmpty) ∧
    c7SE.invalidClients = (clientRowsOf c7Payload).filter (fun c => !c.errs.isEmpty) ∧
    c7SE.routes = (routeRowsOf c7Payload).filter (fun r => r.errs.isEmpty) ∧
    c7SE.invalidRoutes = (routeRowsOf c7Payload).filter (fun r => !r.errs.isEmpty) :=
  c7_partition c7Payload c7SE (by rfl)

end OvMgmt
